import Mathlib

/-!
Verification of the discovery reconciliation engine of
pkg/manager/member/tidb_discovery_manager.go.

The Go source is shallowly embedded: Kubernetes objects become Lean
structures, the reconciler becomes a pure function parameterized by an
abstract apply collaborator, and the side effects (apply calls, warnings)
are returned explicitly as a trace.  Collaborators of the reviewed file
that live elsewhere in the repository (util.AppendEnv, util.CombineStringMap,
the label package, controller.DiscoveryMemberName, MergePatchContainers,
util.ClusterTLSSecretName, the IPv6 adjustment) are modelled from the
specification; each such definition is marked in its doc comment.
-/

/-- A string-keyed map, represented as an association list in insertion
order (Kubernetes label and annotation maps). -/
abbrev StringMap := List (String × String)

/-- Lookup in a string map: value of the first entry with the given key. -/
def getKV (m : StringMap) (k : String) : Option String :=
  (m.find? (fun p => p.1 == k)).map Prod.snd

/-- Generic keyed upsert: replace the first element with the same key,
or append at the end when the key is absent. -/
def upsertBy (key : α → String) : List α → α → List α
  | [], e => [e]
  | x :: xs, e => if key x == key e then e :: xs else x :: upsertBy key xs e

/-- Generic append-with-override merge: fold the overrides into the base
list, each override replacing the entry with its key (last write for a
given key wins). -/
def mergeByName (key : α → String) (a b : List α) : List α :=
  List.foldl (upsertBy key) a b

/-- Modelled from the spec: util.CombineStringMap (the label-merge
collaborator, not under src/) merges string maps with append-with-override
semantics; entries of the second (base-spec) map win on key collision. -/
def CombineStringMap (a b : StringMap) : StringMap :=
  mergeByName Prod.fst a b

/-- An environment variable; MY_POD_NAMESPACE uses a field reference
instead of a literal value. -/
structure EnvVar where
  name : String
  value : String := ""
  valueFromFieldRef : Option String := none
deriving Repr, DecidableEq

/-- Lookup of an environment variable by name (first match). -/
def findEnv (xs : List EnvVar) (n : String) : Option EnvVar :=
  xs.find? (fun e => e.name == n)

/-- Modelled from the spec: util.AppendEnv / EnvMerge (not under src/) —
append-with-override semantics, override wins by variable name, last
write for a given key wins. -/
def AppendEnv (a b : List EnvVar) : List EnvVar :=
  mergeByName EnvVar.name a b

/-- A volume mount of a container. -/
structure VolumeMount where
  name : String
  readOnly : Bool := false
  mountPath : String
deriving Repr, DecidableEq

/-- A volume source: secret-backed, or anything else (opaque). -/
inductive VolumeSource where
  | secret (secretName : String)
  | other (descr : String)
deriving Repr, DecidableEq

/-- A pod volume. -/
structure Volume where
  name : String
  source : VolumeSource
deriving Repr, DecidableEq

/-- A container port. -/
structure ContainerPort where
  name : String
  protocol : String := "TCP"
  containerPort : Nat
deriving Repr, DecidableEq

/-- Container resource requirements. -/
structure ResourceRequirements where
  limits : StringMap := []
  requests : StringMap := []
deriving Repr, DecidableEq

/-- A container of a pod spec. -/
structure Container where
  name : String
  image : String := ""
  imagePullPolicy : String := ""
  command : List String := []
  env : List EnvVar := []
  envFrom : List String := []
  volumeMounts : List VolumeMount := []
  ports : List ContainerPort := []
  resources : ResourceRequirements := {}
deriving Repr, DecidableEq

/-- A pod spec.  The skeleton field stands for the opaque scheduling
fields (affinity, node selector, ...) of the baseline pod spec that the
reviewed code never touches. -/
structure PodSpec where
  containers : List Container := []
  initContainers : List Container := []
  volumes : List Volume := []
  serviceAccountName : String := ""
  skeleton : String := ""
deriving Repr, DecidableEq

/-- The base-spec accessor (v1alpha1.ComponentAccessor) of a cluster
variant: user-supplied environment, image-pull policy, additional
volumes/mounts/containers/init-containers, labels, annotations, and the
opaque pod-spec skeleton. -/
structure ComponentAccessor where
  env : List EnvVar := []
  envFrom : List String := []
  imagePullPolicy : String := ""
  additionalVolumeMounts : List VolumeMount := []
  additionalContainers : List Container := []
  additionalVolumes : List Volume := []
  initContainers : List Container := []
  labels : StringMap := []
  annotations : StringMap := []
  podSkeleton : String := ""
deriving Repr, DecidableEq

/-- Modelled from the spec: ComponentAccessor.BuildPodSpec (not under
src/) returns the baseline pod-spec skeleton; it supplies no containers,
init containers or volumes of its own. -/
def BuildPodSpec (a : ComponentAccessor) : PodSpec :=
  { skeleton := a.podSkeleton }

/-- The discovery member spec of a cluster (resource requirements). -/
structure DiscoverySpec where
  resourceRequirements : ResourceRequirements := {}
deriving Repr, DecidableEq

/-- The Primary variant (v1alpha1.TidbCluster): the fields the reviewed
code reads.  tlsClusterEnabled models IsTLSClusterEnabled(),
withoutLocalPD models WithoutLocalPD(), acrossK8s models AcrossK8s(). -/
structure TidbCluster where
  name : String
  ns : String
  pd : Option Unit := none
  acrossK8s : Bool := false
  preferIPv6 : Bool := false
  tlsClusterEnabled : Bool := false
  withoutLocalPD : Bool := false
  timezone : String := "UTC"
  discovery : DiscoverySpec := {}
  baseDiscoverySpec : ComponentAccessor := {}
deriving Repr, DecidableEq

/-- The Migration variant (v1alpha1.DMCluster): the fields the reviewed
code reads. -/
structure DMCluster where
  name : String
  ns : String
  timezone : String := "UTC"
  discovery : DiscoverySpec := {}
  baseDiscoverySpec : ComponentAccessor := {}
deriving Repr, DecidableEq

/-- The dynamic type of the object handed to Reconcile: one of the two
known variants, or some unsupported type (carrying its type name). -/
inductive ClusterObject where
  | tidb (tc : TidbCluster)
  | dm (dc : DMCluster)
  | unknown (typeName : String)
deriving Repr, DecidableEq

/-- metav1.Object.GetName. -/
def ClusterObject.getName : ClusterObject → String
  | .tidb tc => tc.name
  | .dm dc => dc.name
  | .unknown _ => ""

/-- metav1.Object.GetNamespace. -/
def ClusterObject.getNamespace : ClusterObject → String
  | .tidb tc => tc.ns
  | .dm dc => dc.ns
  | .unknown _ => ""

/-- Label maps (the label package type is a map from string to string). -/
abbrev Label := StringMap

/-- The well-known instance label key. -/
def InstanceLabelKey : String := "app.kubernetes.io/instance"

/-- The well-known component label key. -/
def ComponentLabelKey : String := "app.kubernetes.io/component"

/-- label.PDLabelVal, the PD role label value. -/
def PDLabelVal : String := "pd"

/-- Modelled from the spec: label.New (label collaborator, not under
src/), the base label set of a Primary cluster. -/
def LabelNew : Label :=
  [("app.kubernetes.io/name", "tidb-cluster"),
   ("app.kubernetes.io/managed-by", "tidb-operator")]

/-- Modelled from the spec: label.NewDM (label collaborator, not under
src/), the base label set of a Migration cluster. -/
def LabelNewDM : Label :=
  [("app.kubernetes.io/name", "dm-cluster"),
   ("app.kubernetes.io/managed-by", "tidb-operator")]

/-- Modelled from the spec: Label.Instance sets the instance label. -/
def Label.Instance (l : Label) (i : String) : Label :=
  upsertBy Prod.fst l (InstanceLabelKey, i)

/-- Modelled from the spec: Label.Discovery sets the component label to
discovery. -/
def Label.Discovery (l : Label) : Label :=
  upsertBy Prod.fst l (ComponentLabelKey, "discovery")

/-- Modelled from the spec: Label.LabelSelector builds a selector whose
match labels are exactly the label set. -/
def Label.LabelSelector (l : Label) : Label := l

/-- An owner reference (kind and name of the owning cluster object). -/
structure OwnerReference where
  kind : String
  name : String
deriving Repr, DecidableEq

/-- Modelled from the spec: controller.GetOwnerRef (not under src/), the
owner reference of a Primary cluster. -/
def GetOwnerRef (tc : TidbCluster) : OwnerReference :=
  { kind := "TidbCluster", name := tc.name }

/-- Modelled from the spec: controller.GetDMOwnerRef (not under src/),
the owner reference of a Migration cluster. -/
def GetDMOwnerRef (dc : DMCluster) : OwnerReference :=
  { kind := "DMCluster", name := dc.name }

/-- Modelled from the spec: GetInstanceName (not under src/) derives the
instance name from the cluster name. -/
def TidbCluster.GetInstanceName (tc : TidbCluster) : String := tc.name

/-- Modelled from the spec: GetInstanceName (not under src/) derives the
instance name from the cluster name. -/
def DMCluster.GetInstanceName (dc : DMCluster) : String := dc.name

/-- Object metadata of a built resource. -/
structure ObjectMeta where
  name : String
  ns : String
  labels : Label := []
  annotations : StringMap := []
  ownerReferences : List OwnerReference := []
deriving Repr, DecidableEq

/-- Modelled from the spec: controller.DiscoveryMemberName (not under
src/), the deterministic discovery resource name derived from the
cluster name. -/
def DiscoveryMemberName (clusterName : String) : String :=
  clusterName ++ "-discovery"

/-- Errors of the deployment builder: the unsupported-type panic of the
private helpers, or a container merge failure. -/
inductive BuildError where
  | unsupportedType (typeName : String)
  | mergeFailed (msg : String)
deriving Repr, DecidableEq

/-- getDiscoveryMeta: canonical name, namespace, labels and owner
reference of all discovery resources.  For a Migration cluster the name
and the instance label carry a "-dm" suffix to avoid conflicts with a
same-named Primary cluster.  The Go function panics on an unsupported
type; the panic is modelled as an unsupportedType error. -/
def getDiscoveryMeta (obj : ClusterObject) (nameFunc : String → String) :
    Except BuildError (ObjectMeta × Label) :=
  match obj with
  | .tidb cluster =>
    let name := cluster.name
    let instanceName := cluster.GetInstanceName
    let ownerRef := GetOwnerRef cluster
    let discoveryLabel := Label.Discovery (Label.Instance LabelNew instanceName)
    Except.ok
      ({ name := nameFunc name, ns := obj.getNamespace, labels := discoveryLabel,
         ownerReferences := [ownerRef] }, discoveryLabel)
  | .dm cluster =>
    let name := cluster.name ++ "-dm"
    let instanceName := cluster.GetInstanceName ++ "-dm"
    let ownerRef := GetDMOwnerRef cluster
    let discoveryLabel := Label.Discovery (Label.Instance LabelNewDM instanceName)
    Except.ok
      ({ name := nameFunc name, ns := obj.getNamespace, labels := discoveryLabel,
         ownerReferences := [ownerRef] }, discoveryLabel)
  | .unknown t => Except.error (BuildError.unsupportedType t)

/-- An RBAC policy rule. -/
structure PolicyRule where
  apiGroups : List String := []
  resources : List String := []
  resourceNames : List String := []
  verbs : List String := []
deriving Repr, DecidableEq

/-- An RBAC Role. -/
structure Role where
  objectMeta : ObjectMeta
  rules : List PolicyRule
deriving Repr, DecidableEq

/-- A ServiceAccount. -/
structure ServiceAccount where
  objectMeta : ObjectMeta
deriving Repr, DecidableEq

/-- An RBAC role-binding subject. -/
structure Subject where
  kind : String
  name : String
deriving Repr, DecidableEq

/-- An RBAC role reference. -/
structure RoleRef where
  kind : String
  name : String
  apiGroup : String
deriving Repr, DecidableEq

/-- An RBAC RoleBinding. -/
structure RoleBinding where
  objectMeta : ObjectMeta
  subjects : List Subject
  roleRef : RoleRef
deriving Repr, DecidableEq

/-- v1alpha1.GroupName. -/
def GroupName : String := "pingcap.com"

/-- v1alpha1.TiDBClusterName, the plural resource name. -/
def TiDBClusterName : String := "tidbclusters"

/-- v1alpha1.DMClusterName, the plural resource name. -/
def DMClusterName : String := "dmclusters"

/-- corev1.GroupName. -/
def CoreGroupName : String := ""

/-- rbacv1.GroupName. -/
def RbacGroupName : String := "rbac.authorization.k8s.io"

/-- rbacv1.ServiceAccountKind. -/
def ServiceAccountKind : String := "ServiceAccount"

/-- The pod template spec of a Deployment. -/
structure PodTemplateSpec where
  labels : Label := []
  annotations : StringMap := []
  spec : PodSpec := {}
deriving Repr, DecidableEq

/-- The spec of a Deployment. -/
structure DeploymentSpec where
  strategyType : String := ""
  replicas : Option Nat := none
  selector : Label := []
  template : PodTemplateSpec := {}
deriving Repr, DecidableEq

/-- A Deployment. -/
structure Deployment where
  objectMeta : ObjectMeta
  spec : DeploymentSpec
deriving Repr, DecidableEq

/-- A service port. -/
structure ServicePort where
  name : String
  port : Nat
  targetPort : Nat
  protocol : String
deriving Repr, DecidableEq

/-- The spec of a Service. -/
structure ServiceSpec where
  type : String := ""
  ports : List ServicePort := []
  selector : Label := []
  ipFamilies : List String := []
  ipFamilyPolicy : Option String := none
deriving Repr, DecidableEq

/-- A Service. -/
structure Service where
  objectMeta : ObjectMeta
  spec : ServiceSpec
deriving Repr, DecidableEq

/-- controller.LastAppliedPodTemplate, the well-known fingerprint
annotation key. -/
def LastAppliedPodTemplate : String := "pingcap.com/last-applied-podtemplate"

/-- PdTlsCertPath, the fixed TLS certificate mount path. -/
def PdTlsCertPath : String := "/var/lib/pd-tls"

/-- Modelled from the spec: util.ClusterTLSSecretName (not under src/),
the TLS secret named deterministically from the cluster name and a fixed
role label. -/
def ClusterTLSSecretName (clusterName component : String) : String :=
  clusterName ++ "-" ++ component ++ "-cluster-secret"

/-- Modelled from the spec: controller.ContainerResource (not under
src/) selects the resource requirements for the discovery container. -/
def ContainerResource (r : ResourceRequirements) : ResourceRequirements := r

/-- The CLI configuration consumed through the dependency struct. -/
structure CLIConfig where
  tidbDiscoveryImage : String := ""
deriving Repr, DecidableEq

/-- controller.Dependencies, reduced to the configuration the reviewed
code reads. -/
structure Dependencies where
  cliConfig : CLIConfig := {}
deriving Repr, DecidableEq

/-- Deep-merge of one override container into the base container with
the same name: scalar fields are overridden when the override supplies a
non-empty value, list fields are merged by element name with the
override winning. -/
def mergeContainer (base ovr : Container) : Container :=
  { name := base.name
    image := if ovr.image == "" then base.image else ovr.image
    imagePullPolicy :=
      if ovr.imagePullPolicy == "" then base.imagePullPolicy else ovr.imagePullPolicy
    command := if ovr.command.isEmpty then base.command else ovr.command
    env := AppendEnv base.env ovr.env
    envFrom := base.envFrom ++ ovr.envFrom
    volumeMounts := mergeByName VolumeMount.name base.volumeMounts ovr.volumeMounts
    ports := mergeByName ContainerPort.name base.ports ovr.ports
    resources :=
      if ovr.resources.limits.isEmpty && ovr.resources.requests.isEmpty then
        base.resources
      else ovr.resources }

/-- Modelled from the spec: MergePatchContainers (not under src/) —
deep-merge of the override container list into the base list, keyed by
container name: an override patches the base container with its name in
place, an override with a fresh name is appended; duplicate names within
the overrides are rejected as an error. -/
def MergePatchContainers (base overrides : List Container) :
    Except String (List Container) :=
  if (overrides.map Container.name).Nodup then
    Except.ok
      ((base.map fun c =>
          match overrides.find? (fun o => o.name == c.name) with
          | some o => mergeContainer c o
          | none => c)
        ++ overrides.filter (fun o => !(base.any (fun c => c.name == o.name))))
  else Except.error "duplicate container names in overrides"

/-- The fixed environment set of the discovery container: pod-namespace
field reference, timezone, cluster name. -/
def discoveryFixedEnvs (timezone tcName : String) : List EnvVar :=
  [{ name := "MY_POD_NAMESPACE", valueFromFieldRef := some "metadata.namespace" },
   { name := "TZ", value := timezone },
   { name := "TC_NAME", value := tcName }]

/-- The environment of the discovery container: the fixed set with the
variant-supplied extra environment variables appended with override. -/
def discoveryEnvs (timezone tcName : String) (baseSpec : ComponentAccessor) :
    List EnvVar :=
  AppendEnv (discoveryFixedEnvs timezone tcName) baseSpec.env

/-- The discovery container appended to the pod container list: fixed
command, configured image, composed environment, base-spec mounts, and
the two named TCP ports 10261/10262. -/
def discoveryContainer (cfg : CLIConfig) (resources : ResourceRequirements)
    (timezone tcName : String) (baseSpec : ComponentAccessor) : Container :=
  { name := "discovery"
    resources := ContainerResource resources
    command := ["/usr/local/bin/tidb-discovery"]
    image := cfg.tidbDiscoveryImage
    imagePullPolicy := baseSpec.imagePullPolicy
    env := discoveryEnvs timezone tcName baseSpec
    envFrom := baseSpec.envFrom
    volumeMounts := [] ++ baseSpec.additionalVolumeMounts
    ports :=
      [{ name := "discovery", protocol := "TCP", containerPort := 10261 },
       { name := "proxy", protocol := "TCP", containerPort := 10262 }] }

/-- The pod spec of the discovery deployment before the conditional TLS
augmentation: baseline pod spec, appended discovery container, merged
additional containers, appended init containers and volumes, derived
service-account name. -/
def discoveryPodSpecBase (cfg : CLIConfig) (resources : ResourceRequirements)
    (timezone tcName saName : String) (baseSpec : ComponentAccessor) :
    Except String PodSpec :=
  let podSpec0 := BuildPodSpec baseSpec
  let container := discoveryContainer cfg resources timezone tcName baseSpec
  match MergePatchContainers (podSpec0.containers ++ [container])
      baseSpec.additionalContainers with
  | Except.error e => Except.error e
  | Except.ok merged =>
    Except.ok
      { podSpec0 with
        containers := merged
        initContainers := podSpec0.initContainers ++ baseSpec.initContainers
        serviceAccountName := saName
        volumes := podSpec0.volumes ++ baseSpec.additionalVolumes }

/-- The TLS secret volume appended to the pod spec of a TLS-enabled
Primary cluster. -/
def tlsVolume (clusterName : String) : Volume :=
  { name := "pd-tls",
    source := VolumeSource.secret (ClusterTLSSecretName clusterName PDLabelVal) }

/-- The read-only TLS volume mount at the fixed path. -/
def tlsVolumeMount : VolumeMount :=
  { name := "pd-tls", readOnly := true, mountPath := PdTlsCertPath }

/-- The TLS-enabled environment marker (strconv.FormatBool(true)). -/
def tlsEnvVar : EnvVar := { name := "TC_TLS_ENABLED", value := "true" }

/-- Whether the TLS augmentation applies: the object is a Primary
cluster, TLS-cluster is enabled, and it does not run without a local PD. -/
def tlsDiscoveryEnabled : ClusterObject → Bool
  | .tidb tc => tc.tlsClusterEnabled && !tc.withoutLocalPD
  | _ => false

/-- The conditional TLS augmentation: append the secret-backed volume to
the pod spec, and the read-only mount and the TLS marker variable to the
first container (the discovery container). -/
def applyTLSAugment (tlsOn : Bool) (clusterName : String) (p : PodSpec) : PodSpec :=
  if tlsOn then
    { p with
      volumes := p.volumes ++ [tlsVolume clusterName]
      containers :=
        match p.containers with
        | c :: rest =>
          { c with
            volumeMounts := c.volumeMounts ++ [tlsVolumeMount]
            env := c.env ++ [tlsEnvVar] } :: rest
        | [] => [] }
  else p

/-- Per-variant inputs of the deployment builder: resource requirements,
timezone and base-spec accessor (the type switch at the head of
getTidbDiscoveryDeployment). -/
def discoveryParams : ClusterObject →
    Option (ResourceRequirements × String × ComponentAccessor)
  | .tidb c => some (c.discovery.resourceRequirements, c.timezone, c.baseDiscoverySpec)
  | .dm c => some (c.discovery.resourceRequirements, c.timezone, c.baseDiscoverySpec)
  | .unknown _ => none

/-- Serialize a string with surrounding quotes (model of JSON string
encoding; fixed form, no escaping needed for the modelled data). -/
def quoteStr (s : String) : String := "\"" ++ s ++ "\""

/-- Serialize a list of strings. -/
def marshalStringList (xs : List String) : String :=
  "[" ++ String.intercalate "," (xs.map quoteStr) ++ "]"

/-- Serialize a string map in insertion order (stable key order). -/
def marshalStringMap (m : StringMap) : String :=
  "[" ++ String.intercalate "," (m.map fun p => quoteStr p.1 ++ ":" ++ quoteStr p.2) ++ "]"

/-- Serialize an environment variable. -/
def marshalEnvVar (e : EnvVar) : String :=
  "env(" ++ quoteStr e.name ++ "," ++ quoteStr e.value ++ "," ++
    (match e.valueFromFieldRef with
     | some f => "fieldRef(" ++ quoteStr f ++ ")"
     | none => "null") ++ ")"

/-- Serialize a volume mount. -/
def marshalMount (m : VolumeMount) : String :=
  "mount(" ++ quoteStr m.name ++ "," ++ (if m.readOnly then "ro" else "rw") ++
    "," ++ quoteStr m.mountPath ++ ")"

/-- Serialize a container port. -/
def marshalPort (p : ContainerPort) : String :=
  "port(" ++ quoteStr p.name ++ "," ++ quoteStr p.protocol ++ "," ++
    toString p.containerPort ++ ")"

/-- Serialize a volume. -/
def marshalVolume (v : Volume) : String :=
  "volume(" ++ quoteStr v.name ++ "," ++
    (match v.source with
     | VolumeSource.secret s => "secret(" ++ quoteStr s ++ ")"
     | VolumeSource.other d => "other(" ++ quoteStr d ++ ")") ++ ")"

/-- Serialize resource requirements. -/
def marshalResources (r : ResourceRequirements) : String :=
  "resources(" ++ marshalStringMap r.limits ++ "," ++ marshalStringMap r.requests ++ ")"

/-- Serialize a container with a fixed field order. -/
def marshalContainer (c : Container) : String :=
  "container(" ++ quoteStr c.name ++ "," ++ quoteStr c.image ++ "," ++
    quoteStr c.imagePullPolicy ++ "," ++ marshalStringList c.command ++ "," ++
    "[" ++ String.intercalate "," (c.env.map marshalEnvVar) ++ "]," ++
    marshalStringList c.envFrom ++ "," ++
    "[" ++ String.intercalate "," (c.volumeMounts.map marshalMount) ++ "]," ++
    "[" ++ String.intercalate "," (c.ports.map marshalPort) ++ "]," ++
    marshalResources c.resources ++ ")"

/-- Model of json.Marshal on the pod spec: a deterministic serialization
with a fixed field order (stable key ordering). -/
def marshalPodSpec (p : PodSpec) : String :=
  "podSpec(" ++
    "[" ++ String.intercalate "," (p.containers.map marshalContainer) ++ "]," ++
    "[" ++ String.intercalate "," (p.initContainers.map marshalContainer) ++ "]," ++
    "[" ++ String.intercalate "," (p.volumes.map marshalVolume) ++ "]," ++
    quoteStr p.serviceAccountName ++ "," ++ quoteStr p.skeleton ++ ")"

/-- Store the serialized pod spec under the well-known fingerprint
annotation key on the Deployment. -/
def setLastApplied (d : Deployment) : Deployment :=
  { d with
    objectMeta :=
      { d.objectMeta with
        annotations :=
          upsertBy Prod.fst d.objectMeta.annotations
            (LastAppliedPodTemplate, marshalPodSpec d.spec.template.spec) } }

/-- getTidbDiscoveryDeployment: build the desired discovery Deployment
from the cluster object.  The unsupported-type panic of the Go code is
modelled as an unsupportedType error; a container merge failure is a
mergeFailed error. -/
def getTidbDiscoveryDeployment (deps : Dependencies) (obj : ClusterObject) :
    Except BuildError Deployment :=
  match discoveryParams obj with
  | none => Except.error (BuildError.unsupportedType "unsupported type for discovery")
  | some (resources, timezone, baseSpec) =>
    match getDiscoveryMeta obj DiscoveryMemberName with
    | Except.error e => Except.error e
    | Except.ok (meta, l) =>
      match discoveryPodSpecBase deps.cliConfig resources timezone
          (ClusterObject.getName obj) meta.name baseSpec with
      | Except.error e =>
        Except.error (BuildError.mergeFailed
          ("failed to merge containers spec for Discovery of [" ++ meta.ns ++ "/" ++
            meta.name ++ "], error: " ++ e))
      | Except.ok podSpec1 =>
        let podSpec2 :=
          applyTLSAugment (tlsDiscoveryEnabled obj) (ClusterObject.getName obj) podSpec1
        let podLabels := CombineStringMap l baseSpec.labels
        let d : Deployment :=
          { objectMeta := meta
            spec :=
              { strategyType := "Recreate"
                replicas := some 1
                selector := Label.LabelSelector l
                template :=
                  { labels := podLabels
                    annotations := baseSpec.annotations
                    spec := podSpec2 } } }
        Except.ok (setLastApplied d)

/-- Modelled from the spec: SetServiceWhenPreferIPv6 (the IPv6Adjust
collaborator, not under src/) adjusts the IP-family fields of the
service to prefer IPv6 first. -/
def SetServiceWhenPreferIPv6 (svc : Service) : Service :=
  { svc with
    spec :=
      { svc.spec with
        ipFamilies := ["IPv6", "IPv4"]
        ipFamilyPolicy := some "PreferDualStack" } }

/-- getTidbDiscoveryService: the fixed two-port ClusterIP service whose
selector is the pod-template labels of the deployment passed in (in
Reconcile, the applied deployment).  The unsupported-type panic of
getDiscoveryMeta is modelled as an error. -/
def getTidbDiscoveryService (obj : ClusterObject) (deploy : Deployment)
    (preferIPv6 : Bool) : Except BuildError Service :=
  match getDiscoveryMeta obj DiscoveryMemberName with
  | Except.error e => Except.error e
  | Except.ok (meta, _) =>
    let svc : Service :=
      { objectMeta := meta
        spec :=
          { type := "ClusterIP"
            ports :=
              [{ name := "discovery", port := 10261, targetPort := 10261,
                 protocol := "TCP" },
               { name := "proxy", port := 10262, targetPort := 10262,
                 protocol := "TCP" }]
            selector := deploy.spec.template.labels } }
    Except.ok (if preferIPv6 then SetServiceWhenPreferIPv6 svc else svc)

/-- One invocation of the external apply collaborator, with the
submitted desired object. -/
inductive ApplyCall where
  | role (r : Role)
  | serviceAccount (s : ServiceAccount)
  | roleBinding (rb : RoleBinding)
  | deployment (d : Deployment)
  | service (s : Service)
deriving Repr, DecidableEq

/-- The resource kind of an apply invocation. -/
inductive ApplyKind where
  | role
  | serviceAccount
  | roleBinding
  | deployment
  | service
deriving Repr, DecidableEq

/-- Kind of an apply invocation. -/
def ApplyCall.kindOf : ApplyCall → ApplyKind
  | .role _ => ApplyKind.role
  | .serviceAccount _ => ApplyKind.serviceAccount
  | .roleBinding _ => ApplyKind.roleBinding
  | .deployment _ => ApplyKind.deployment
  | .service _ => ApplyKind.service

/-- The error surface of Reconcile: a plain (non-retryable) error or a
retryable requeue error (controller.RequeueErrorf). -/
inductive ReconcileError where
  | plain (msg : String)
  | requeue (msg : String)
deriving Repr, DecidableEq

/-- The external apply collaborator (TypedControl): idempotent
create-or-update per resource kind, returning the applied object, whose
fields may differ from the request. -/
structure Applier where
  createOrUpdateRole : Role → Except String Role
  createOrUpdateServiceAccount : ServiceAccount → Except String ServiceAccount
  createOrUpdateRoleBinding : RoleBinding → Except String RoleBinding
  createOrUpdateDeployment : Deployment → Except String Deployment
  createOrUpdateService : Service → Except String Service

/-- The observable outcome of one Reconcile call: the apply invocations
made in order, the warnings logged, and the returned error (or nil). -/
structure ReconcileOutput where
  calls : List ApplyCall := []
  warnings : List String := []
  result : Except ReconcileError Unit := Except.ok ()
deriving Repr

/-- Message of a build error, as interpolated into the requeue error. -/
def buildErrorMsg : BuildError → String
  | .unsupportedType t => "unsupported type " ++ t
  | .mergeFailed m => m

/-- The post-dispatch body of Reconcile for a known variant: build and
apply Role, ServiceAccount, RoleBinding, Deployment and Service in that
order, stopping at the first failure with a requeue error. -/
def reconcileCore (deps : Dependencies) (app : Applier) (obj : ClusterObject)
    (clusterPolicyRule : PolicyRule) (preferIPv6 : Bool) : ReconcileOutput :=
  match getDiscoveryMeta obj DiscoveryMemberName with
  | Except.error e =>
    { result := Except.error (ReconcileError.plain (buildErrorMsg e)) }
  | Except.ok (meta, _) =>
    let role : Role :=
      { objectMeta := meta
        rules :=
          [clusterPolicyRule,
           { apiGroups := [CoreGroupName], resources := ["secrets"],
             verbs := ["get", "list", "watch"] }] }
    match app.createOrUpdateRole role with
    | Except.error e =>
      { calls := [ApplyCall.role role]
        result := Except.error (ReconcileError.requeue
          ("error creating or updating discovery role: " ++ e)) }
    | Except.ok _ =>
      let sa : ServiceAccount := { objectMeta := meta }
      match app.createOrUpdateServiceAccount sa with
      | Except.error e =>
        { calls := [ApplyCall.role role, ApplyCall.serviceAccount sa]
          result := Except.error (ReconcileError.requeue
            ("error creating or updating discovery serviceaccount: " ++ e)) }
      | Except.ok _ =>
        let rb : RoleBinding :=
          { objectMeta := meta
            subjects := [{ kind := ServiceAccountKind, name := meta.name }]
            roleRef := { kind := "Role", name := meta.name, apiGroup := RbacGroupName } }
        match app.createOrUpdateRoleBinding rb with
        | Except.error e =>
          { calls := [ApplyCall.role role, ApplyCall.serviceAccount sa,
                      ApplyCall.roleBinding rb]
            result := Except.error (ReconcileError.requeue
              ("error creating or updating discovery rolebinding: " ++ e)) }
        | Except.ok _ =>
          match getTidbDiscoveryDeployment deps obj with
          | Except.error e =>
            { calls := [ApplyCall.role role, ApplyCall.serviceAccount sa,
                        ApplyCall.roleBinding rb]
              result := Except.error (ReconcileError.requeue
                ("error generating discovery deployment: " ++ buildErrorMsg e)) }
          | Except.ok d =>
            match app.createOrUpdateDeployment d with
            | Except.error e =>
              { calls := [ApplyCall.role role, ApplyCall.serviceAccount sa,
                          ApplyCall.roleBinding rb, ApplyCall.deployment d]
                result := Except.error (ReconcileError.requeue
                  ("error creating or updating discovery service: " ++ e)) }
            | Except.ok deploy =>
              match getTidbDiscoveryService obj deploy preferIPv6 with
              | Except.error e =>
                { calls := [ApplyCall.role role, ApplyCall.serviceAccount sa,
                            ApplyCall.roleBinding rb, ApplyCall.deployment d]
                  result := Except.error (ReconcileError.plain (buildErrorMsg e)) }
              | Except.ok svc =>
                match app.createOrUpdateService svc with
                | Except.error e =>
                  { calls := [ApplyCall.role role, ApplyCall.serviceAccount sa,
                              ApplyCall.roleBinding rb, ApplyCall.deployment d,
                              ApplyCall.service svc]
                    result := Except.error (ReconcileError.requeue
                      ("error creating or updating discovery service: " ++ e)) }
                | Except.ok _ =>
                  { calls := [ApplyCall.role role, ApplyCall.serviceAccount sa,
                              ApplyCall.roleBinding rb, ApplyCall.deployment d,
                              ApplyCall.service svc] }

/-- Reconcile(obj): the produced surface of the engine.  The argument is
an Option: none models a nil interface value, for which (and only which)
the metav1.Object type assertion fails — the client.Object interface
embeds metav1.Object, so every non-nil argument satisfies it.  A nil
argument yields the plain (non-retryable) type-assertion error; an
unsupported type logs a warning and returns success; a Primary cluster
with no PD member and no cross-cluster mode returns success without
applying anything. -/
def Reconcile (deps : Dependencies) (app : Applier) (obj : Option ClusterObject) :
    ReconcileOutput :=
  match obj with
  | none =>
    { result := Except.error (ReconcileError.plain "nil is not a metav1.Object") }
  | some (ClusterObject.unknown t) =>
    { warnings := ["unsupported type " ++ t ++ " for discovery"] }
  | some (ClusterObject.tidb cluster) =>
    if cluster.pd.isNone && !cluster.acrossK8s then {}
    else
      reconcileCore deps app (ClusterObject.tidb cluster)
        { apiGroups := [GroupName], resources := [TiDBClusterName],
          resourceNames := [cluster.name], verbs := ["get"] }
        cluster.preferIPv6
  | some (ClusterObject.dm cluster) =>
    reconcileCore deps app (ClusterObject.dm cluster)
      { apiGroups := [GroupName], resources := [DMClusterName],
        resourceNames := [cluster.name], verbs := ["get"] }
      false

/-- Whether a known variant passes the dispatch gating (a Primary
cluster is gated out when it has no PD member and no cross-cluster
mode; an unknown type never reaches the core). -/
def passesGating : ClusterObject → Bool
  | .tidb tc => !(tc.pd.isNone && !tc.acrossK8s)
  | .dm _ => true
  | .unknown _ => false

/-- Whether the apply collaborator accepts the given invocation. -/
def applySucceeds (app : Applier) : ApplyCall → Bool
  | .role r => (app.createOrUpdateRole r).toBool
  | .serviceAccount s => (app.createOrUpdateServiceAccount s).toBool
  | .roleBinding rb => (app.createOrUpdateRoleBinding rb).toBool
  | .deployment d => (app.createOrUpdateDeployment d).toBool
  | .service s => (app.createOrUpdateService s).toBool

/-- Upsert semantics: looking up the upserted key yields the new
element; every other key is unaffected. -/
theorem find?_upsertBy (key : α → String) (a : List α) (e : α) (n : String) :
    (upsertBy key a e).find? (fun x => key x == n) =
      if key e = n then some e else a.find? (fun x => key x == n) := by
  induction a with
  | nil =>
    by_cases h : key e = n
    · subst h; simp [upsertBy, List.find?]
    · have hen : (key e == n) = false := by simp [h]
      simp [upsertBy, List.find?, h, hen]
  | cons x xs ih =>
    by_cases hxe : key x = key e
    · have hxe2 : (key x == key e) = true := by simp [hxe]
      by_cases h : key e = n
      · subst h
        simp [upsertBy, hxe2, List.find?]
      · have hen : (key e == n) = false := by simp [h]
        have hxn : (key x == n) = false := by rw [hxe]; exact hen
        simp [upsertBy, hxe2, List.find?, h, hen, hxn]
    · have hxe2 : (key x == key e) = false := by simp [hxe]
      by_cases h : key e = n
      · subst h
        have hxn : (key x == key e) = false := hxe2
        simp [upsertBy, hxe2, List.find?, hxn, ih]
      · by_cases hxn : key x = n
        · subst hxn
          have hxx : (key x == key x) = true := by simp
          simp [upsertBy, hxe2, List.find?, h, hxx, ih]
        · have hxn2 : (key x == n) = false := by simp [hxn]
          simp [upsertBy, hxe2, List.find?, h, hxn2, ih]

/-- Append-with-override semantics of the generic merge: the effective
entry for a key is the last write among the overrides when one exists,
and the base entry otherwise. -/
theorem find?_mergeByName (key : α → String) (b a : List α) (n : String) :
    (mergeByName key a b).find? (fun x => key x == n) =
      Option.orElse (b.reverse.find? (fun x => key x == n))
        (fun _ => a.find? (fun x => key x == n)) := by
  induction b generalizing a with
  | nil => simp [mergeByName, List.foldl, List.find?, Option.orElse]
  | cons e b ih =>
    have h1 : mergeByName key a (e :: b) = mergeByName key (upsertBy key a e) b := rfl
    rw [h1, ih, List.reverse_cons, List.find?_append, find?_upsertBy]
    cases hb : b.reverse.find? (fun x => key x == n) with
    | some y => simp [Option.orElse]
    | none =>
      by_cases h : key e = n
      · subst h; simp [List.find?, Option.orElse]
      · have hen : (key e == n) = false := by simp [h]
        simp [List.find?, h, hen, Option.orElse]

/-- Shape of a successfully built Deployment: the pre-TLS pod spec
succeeded, and the Deployment is the recreate-strategy single-replica
object over the TLS-augmented pod spec, with the fingerprint annotation
set. -/
theorem build_ok_shape (deps : Dependencies) (obj : ClusterObject)
    (resources : ResourceRequirements) (timezone : String)
    (baseSpec : ComponentAccessor) (meta : ObjectMeta) (l : Label)
    (hparams : discoveryParams obj = some (resources, timezone, baseSpec))
    (hmeta : getDiscoveryMeta obj DiscoveryMemberName = Except.ok (meta, l)) :
    ∀ d, getTidbDiscoveryDeployment deps obj = Except.ok d →
      ∃ p, discoveryPodSpecBase deps.cliConfig resources timezone
            (ClusterObject.getName obj) meta.name baseSpec = Except.ok p ∧
        d = setLastApplied
          { objectMeta := meta
            spec :=
              { strategyType := "Recreate"
                replicas := some 1
                selector := Label.LabelSelector l
                template :=
                  { labels := CombineStringMap l baseSpec.labels
                    annotations := baseSpec.annotations
                    spec := applyTLSAugment (tlsDiscoveryEnabled obj)
                              (ClusterObject.getName obj) p } } } := by
  intro d hd
  unfold getTidbDiscoveryDeployment at hd
  rw [hparams, hmeta] at hd
  dsimp only at hd
  cases hbase : discoveryPodSpecBase deps.cliConfig resources timezone
      (ClusterObject.getName obj) meta.name baseSpec with
  | error e =>
    rw [hbase] at hd
    exact absurd hd (by simp)
  | ok p =>
    rw [hbase] at hd
    dsimp only at hd
    injection hd with hd2
    exact ⟨p, rfl, hd2.symm⟩

/-- A successfully built pre-TLS pod spec has a nonempty container list
whose head position is the (possibly patched) discovery container. -/
theorem discoveryPodSpecBase_cons (cfg : CLIConfig) (resources : ResourceRequirements)
    (timezone tcName saName : String) (baseSpec : ComponentAccessor) (p : PodSpec)
    (h : discoveryPodSpecBase cfg resources timezone tcName saName baseSpec =
      Except.ok p) :
    ∃ c rest, p.containers = c :: rest := by
  unfold discoveryPodSpecBase at h
  dsimp only [BuildPodSpec, List.nil_append] at h
  cases hm : MergePatchContainers
      [discoveryContainer cfg resources timezone tcName baseSpec]
      baseSpec.additionalContainers with
  | error e =>
    rw [hm] at h
    exact absurd h (by simp)
  | ok merged =>
    rw [hm] at h
    dsimp only at h
    injection h with h2
    unfold MergePatchContainers at hm
    split at hm
    · injection hm with hm2
      subst h2
      dsimp only
      rw [← hm2]
      exact ⟨_, _, rfl⟩
    · exact absurd hm (by simp)

/-- A sample base-spec accessor with colliding env and label keys. -/
def sampleAccessor : ComponentAccessor :=
  { env := [{ name := "TZ", value := "Asia/Shanghai" }, { name := "EXTRA", value := "1" }]
    labels := [("app.kubernetes.io/name", "override"), ("team", "db")]
    annotations := [("note", "x")] }

/-- A sample Primary cluster with TLS enabled and a local PD. -/
def sampleTC : TidbCluster :=
  { name := "foo", ns := "default", pd := some (), tlsClusterEnabled := true,
    baseDiscoverySpec := sampleAccessor }

/-- A sample Migration cluster with the same name and namespace. -/
def sampleDM : DMCluster := { name := "foo", ns := "default" }

/-- Sample dependencies with a configured discovery image. -/
def sampleDeps : Dependencies :=
  { cliConfig := { tidbDiscoveryImage := "pingcap/tidb-operator:v1" } }

/-- An apply collaborator that accepts every request unchanged. -/
def okApplier : Applier :=
  { createOrUpdateRole := Except.ok
    createOrUpdateServiceAccount := Except.ok
    createOrUpdateRoleBinding := Except.ok
    createOrUpdateDeployment := Except.ok
    createOrUpdateService := Except.ok }

/-- A throwaway Deployment used as a getD default. -/
def anyDeployment : Deployment := { objectMeta := { name := "", ns := "" }, spec := {} }

/-- The Deployment built for the sample TLS-enabled Primary cluster. -/
def builtOn : Deployment :=
  (getTidbDiscoveryDeployment sampleDeps
    (ClusterObject.tidb sampleTC)).toOption.getD anyDeployment

/-- The Deployment built for the same cluster with TLS disabled. -/
def builtOff : Deployment :=
  (getTidbDiscoveryDeployment sampleDeps
    (ClusterObject.tidb { sampleTC with tlsClusterEnabled := false })).toOption.getD
    anyDeployment

/-- C1: for a Primary cluster that is TLS-cluster-enabled and not
running without a local PD, the built Deployment differs from the
TLS-disabled build exactly by one secret-backed pod volume (secret named
from the cluster name and the PD role label), one additional read-only
mount of the discovery container at the fixed TLS path, and one
additional TC_TLS_ENABLED="true" environment entry on that container;
with TLS disabled the augmentation step adds nothing at all. -/
theorem discovery_tls_wiring (deps : Dependencies) (tc : TidbCluster)
    (hTls : tc.tlsClusterEnabled = true) (hPd : tc.withoutLocalPD = false) :
    (∀ d dOff,
      getTidbDiscoveryDeployment deps (ClusterObject.tidb tc) = Except.ok d →
      getTidbDiscoveryDeployment deps
          (ClusterObject.tidb { tc with tlsClusterEnabled := false }) =
        Except.ok dOff →
      d.spec.template.spec.volumes =
        dOff.spec.template.spec.volumes ++ [tlsVolume tc.name] ∧
      (∃ c rest, dOff.spec.template.spec.containers = c :: rest ∧
        d.spec.template.spec.containers =
          { c with volumeMounts := c.volumeMounts ++ [tlsVolumeMount],
                   env := c.env ++ [tlsEnvVar] } :: rest)) ∧
    (∀ tc2 : TidbCluster, tc2.tlsClusterEnabled = false → ∀ p : PodSpec,
      applyTLSAugment (tlsDiscoveryEnabled (ClusterObject.tidb tc2)) tc2.name p = p) := by
  constructor
  · intro d dOff hd hdOff
    obtain ⟨p1, hb1, he1⟩ :=
      build_ok_shape deps (ClusterObject.tidb tc) _ _ _ _ _ rfl rfl d hd
    obtain ⟨p2, hb2, he2⟩ :=
      build_ok_shape deps (ClusterObject.tidb { tc with tlsClusterEnabled := false })
        _ _ _ _ _ rfl rfl dOff hdOff
    have hb1a : discoveryPodSpecBase deps.cliConfig tc.discovery.resourceRequirements
        tc.timezone tc.name (DiscoveryMemberName tc.name) tc.baseDiscoverySpec =
        Except.ok p1 := hb1
    have hb2a : discoveryPodSpecBase deps.cliConfig tc.discovery.resourceRequirements
        tc.timezone tc.name (DiscoveryMemberName tc.name) tc.baseDiscoverySpec =
        Except.ok p2 := hb2
    rw [hb1a] at hb2a
    injection hb2a with hp
    subst hp
    have hd_spec : d.spec.template.spec =
        applyTLSAugment (tlsDiscoveryEnabled (ClusterObject.tidb tc)) tc.name p1 := by
      rw [he1]
      rfl
    have hdOff_spec : dOff.spec.template.spec = p1 := by
      rw [he2]
      rfl
    have htls : tlsDiscoveryEnabled (ClusterObject.tidb tc) = true := by
      simp [tlsDiscoveryEnabled, hTls, hPd]
    rw [htls] at hd_spec
    obtain ⟨c, rest, hcons⟩ := discoveryPodSpecBase_cons _ _ _ _ _ _ _ hb1a
    constructor
    · rw [hd_spec, hdOff_spec]
      simp [applyTLSAugment]
    · refine ⟨c, rest, ?_, ?_⟩
      · rw [hdOff_spec]
        exact hcons
      · rw [hd_spec]
        simp [applyTLSAugment, hcons]
  · intro tc2 h2 p
    simp [tlsDiscoveryEnabled, applyTLSAugment, h2]

/-- C1 witness: the sample TLS-enabled build gains exactly the TLS
secret volume over the TLS-disabled build. -/
theorem discovery_tls_wiring_witness :
    builtOn.spec.template.spec.volumes =
      builtOff.spec.template.spec.volumes ++ [tlsVolume sampleTC.name] := by
  have h := (discovery_tls_wiring sampleDeps sampleTC rfl rfl).1 builtOn builtOff rfl rfl
  exact h.1

/-- C2: the discovery container environment is the fixed set
(MY_POD_NAMESPACE field reference, TZ, TC_NAME) with the variant-supplied
extra variables appended with override semantics: the effective entry
for a name k is the last variant-supplied write for k when one exists,
and the fixed entry otherwise. -/
theorem discovery_env_semantics (cfg : CLIConfig) (resources : ResourceRequirements)
    (timezone tcName : String) (baseSpec : ComponentAccessor) :
    discoveryFixedEnvs timezone tcName =
      [{ name := "MY_POD_NAMESPACE", valueFromFieldRef := some "metadata.namespace" },
       { name := "TZ", value := timezone },
       { name := "TC_NAME", value := tcName }] ∧
    discoveryEnvs timezone tcName baseSpec =
      AppendEnv (discoveryFixedEnvs timezone tcName) baseSpec.env ∧
    (discoveryContainer cfg resources timezone tcName baseSpec).env =
      discoveryEnvs timezone tcName baseSpec ∧
    ∀ k, findEnv (discoveryEnvs timezone tcName baseSpec) k =
      Option.orElse ((baseSpec.env.reverse).find? (fun e => e.name == k))
        (fun _ => findEnv (discoveryFixedEnvs timezone tcName) k) := by
  refine ⟨rfl, rfl, rfl, ?_⟩
  intro k
  exact find?_mergeByName EnvVar.name baseSpec.env (discoveryFixedEnvs timezone tcName) k

/-- C3: the built pod-template labels are the variant-derived discovery
labels combined with the base-spec labels, base-spec values winning on
key collision, and the pod-template annotations are the base-spec
annotations unmodified. -/
theorem discovery_pod_labels (deps : Dependencies) (obj : ClusterObject)
    (resources : ResourceRequirements) (timezone : String)
    (baseSpec : ComponentAccessor) (meta : ObjectMeta) (l : Label)
    (hparams : discoveryParams obj = some (resources, timezone, baseSpec))
    (hmeta : getDiscoveryMeta obj DiscoveryMemberName = Except.ok (meta, l)) :
    ∀ d, getTidbDiscoveryDeployment deps obj = Except.ok d →
      d.spec.template.labels = CombineStringMap l baseSpec.labels ∧
      d.spec.template.annotations = baseSpec.annotations ∧
      ∀ k, getKV d.spec.template.labels k =
        Option.orElse (((baseSpec.labels.reverse).find? (fun p => p.1 == k)).map Prod.snd)
          (fun _ => getKV l k) := by
  intro d hd
  obtain ⟨p, hb, he⟩ :=
    build_ok_shape deps obj resources timezone baseSpec meta l hparams hmeta d hd
  subst he
  refine ⟨rfl, rfl, ?_⟩
  intro k
  show getKV (CombineStringMap l baseSpec.labels) k =
    Option.orElse (((baseSpec.labels.reverse).find? (fun p => p.1 == k)).map Prod.snd)
      (fun _ => getKV l k)
  unfold getKV CombineStringMap
  rw [find?_mergeByName]
  cases hf : baseSpec.labels.reverse.find? (fun p => p.1 == k) <;>
    simp [hf, Option.orElse, getKV]

/-- C3 witness: in the sample build the base-spec value overrides the
label-scheme value for the colliding name key, and the annotations pass
through unmodified. -/
theorem discovery_pod_labels_witness :
    getKV builtOn.spec.template.labels "app.kubernetes.io/name" = some "override" ∧
    builtOn.spec.template.annotations = [("note", "x")] := by
  obtain ⟨h1, h2, h3⟩ :=
    discovery_pod_labels sampleDeps (ClusterObject.tidb sampleTC) _ _ _ _ _
      rfl rfl builtOn rfl
  exact ⟨(h3 "app.kubernetes.io/name").trans rfl, h2.trans rfl⟩

/-- C8: building the Deployment is deterministic in the cluster object —
equal inputs give equal builds and byte-identical fingerprint
annotations, a second Reconcile output equals the first, the pod-spec
serialization is deterministic, and the fingerprint annotation is
exactly the serialization of the built pod spec. -/
theorem discovery_build_deterministic (deps : Dependencies) (app : Applier)
    (c1 c2 : ClusterObject) (h : c1 = c2) :
    getTidbDiscoveryDeployment deps c1 = getTidbDiscoveryDeployment deps c2 ∧
    Reconcile deps app (some c1) = Reconcile deps app (some c2) ∧
    (∀ p1 p2 : PodSpec, p1 = p2 → marshalPodSpec p1 = marshalPodSpec p2) ∧
    (∀ d1 d2, getTidbDiscoveryDeployment deps c1 = Except.ok d1 →
      getTidbDiscoveryDeployment deps c2 = Except.ok d2 →
      getKV d1.objectMeta.annotations LastAppliedPodTemplate =
        getKV d2.objectMeta.annotations LastAppliedPodTemplate ∧
      getKV d1.objectMeta.annotations LastAppliedPodTemplate =
        some (marshalPodSpec d1.spec.template.spec)) := by
  subst h
  refine ⟨rfl, rfl, fun p1 p2 hp => by rw [hp], ?_⟩
  intro d1 d2 h1 h2
  rw [h1] at h2
  injection h2 with h12
  subst h12
  refine ⟨rfl, ?_⟩
  cases c1 with
  | tidb tc =>
    obtain ⟨p, hb, he⟩ :=
      build_ok_shape deps (ClusterObject.tidb tc) _ _ _ _ _ rfl rfl d1 h1
    subst he
    rfl
  | dm dc =>
    obtain ⟨p, hb, he⟩ :=
      build_ok_shape deps (ClusterObject.dm dc) _ _ _ _ _ rfl rfl d1 h1
    subst he
    rfl
  | unknown t =>
    simp [getTidbDiscoveryDeployment, discoveryParams] at h1

/-- C8 witness: the sample build carries its own pod-spec serialization
under the fingerprint key. -/
theorem discovery_build_deterministic_witness :
    getKV builtOn.objectMeta.annotations LastAppliedPodTemplate =
      some (marshalPodSpec builtOn.spec.template.spec) := by
  have h := discovery_build_deterministic sampleDeps okApplier
    (ClusterObject.tidb sampleTC) (ClusterObject.tidb sampleTC) rfl
  exact (h.2.2.2 builtOn builtOn rfl rfl).2

/-- C5: a Primary cluster that declares no PD member and is not in
cross-cluster mode reconciles to an immediate success with no apply
invocation and no warning. -/
theorem reconcile_gating (deps : Dependencies) (app : Applier) (tc : TidbCluster)
    (hpd : tc.pd = none) (hak : tc.acrossK8s = false) :
    Reconcile deps app (some (ClusterObject.tidb tc)) =
      { calls := [], warnings := [], result := Except.ok () } := by
  simp [Reconcile, hpd, hak]

/-- A sample Primary cluster with no PD member and no cross-cluster
mode. -/
def gatedTC : TidbCluster := { name := "bar", ns := "default" }

/-- C5 witness: the gated sample cluster reconciles to a no-op. -/
theorem reconcile_gating_witness :
    Reconcile sampleDeps okApplier (some (ClusterObject.tidb gatedTC)) =
      { calls := [], warnings := [], result := Except.ok () } :=
  reconcile_gating sampleDeps okApplier gatedTC rfl rfl

/-- C9: an object of an unsupported type reconciles to success with a
logged warning and no apply invocation. -/
theorem reconcile_unsupported_type (deps : Dependencies) (app : Applier) (t : String) :
    Reconcile deps app (some (ClusterObject.unknown t)) =
      { calls := [], warnings := ["unsupported type " ++ t ++ " for discovery"],
        result := Except.ok () } := rfl

/-- C6: a Migration cluster and a Primary cluster with the same name in
the same namespace derive disjoint discovery resource names and instance
labels — the Migration-derived ones carry the fixed "-dm" suffix on the
cluster name, the Primary-derived ones use the cluster name unmodified. -/
theorem discovery_naming_isolation (tc : TidbCluster) (dc : DMCluster)
    (hname : dc.name = tc.name) (_hns : dc.ns = tc.ns) :
    ∀ metaT lT metaD lD,
      getDiscoveryMeta (ClusterObject.tidb tc) DiscoveryMemberName =
        Except.ok (metaT, lT) →
      getDiscoveryMeta (ClusterObject.dm dc) DiscoveryMemberName =
        Except.ok (metaD, lD) →
      metaT.name = DiscoveryMemberName tc.name ∧
      metaD.name = DiscoveryMemberName (tc.name ++ "-dm") ∧
      metaD.name ≠ metaT.name ∧
      getKV lT InstanceLabelKey = some tc.name ∧
      getKV lD InstanceLabelKey = some (tc.name ++ "-dm") ∧
      getKV lD InstanceLabelKey ≠ getKV lT InstanceLabelKey := by
  intro metaT lT metaD lD hT hD
  obtain ⟨hTm, hTl⟩ := Prod.mk.inj (Except.ok.inj hT)
  obtain ⟨hDm, hDl⟩ := Prod.mk.inj (Except.ok.inj hD)
  subst hTm
  subst hTl
  subst hDm
  subst hDl
  have e1 : getKV (Label.Discovery (Label.Instance LabelNew tc.GetInstanceName))
      InstanceLabelKey = some tc.name := rfl
  have e2 : getKV (Label.Discovery (Label.Instance LabelNewDM (dc.GetInstanceName ++ "-dm")))
      InstanceLabelKey = some (dc.name ++ "-dm") := rfl
  refine ⟨rfl, ?_, ?_, e1, ?_, ?_⟩
  · show DiscoveryMemberName (dc.name ++ "-dm") = DiscoveryMemberName (tc.name ++ "-dm")
    rw [hname]
  · show DiscoveryMemberName (dc.name ++ "-dm") ≠ DiscoveryMemberName tc.name
    rw [hname]
    intro hc
    have hlen := congrArg String.length hc
    simp [DiscoveryMemberName, String.length_append] at hlen
    exact absurd hlen (by decide)
  · rw [e2, hname]
  · rw [e2, e1, hname]
    intro hc
    have hlen := congrArg String.length (Option.some.inj hc)
    simp [String.length_append] at hlen
    exact absurd hlen (by decide)

/-- A throwaway ObjectMeta used as a getD default. -/
def anyMeta : ObjectMeta := { name := "", ns := "" }

/-- The discovery meta derived for the sample Primary cluster. -/
def sampleMetaT : ObjectMeta × Label :=
  (getDiscoveryMeta (ClusterObject.tidb sampleTC) DiscoveryMemberName).toOption.getD
    (anyMeta, [])

/-- The discovery meta derived for the same-named sample Migration
cluster. -/
def sampleMetaD : ObjectMeta × Label :=
  (getDiscoveryMeta (ClusterObject.dm sampleDM) DiscoveryMemberName).toOption.getD
    (anyMeta, [])

/-- C6 witness: the same-named sample clusters derive distinct discovery
resource names, the Migration one suffixed. -/
theorem discovery_naming_isolation_witness :
    sampleMetaT.1.name = DiscoveryMemberName "foo" ∧
    sampleMetaD.1.name = DiscoveryMemberName ("foo" ++ "-dm") ∧
    sampleMetaD.1.name ≠ sampleMetaT.1.name := by
  have h := discovery_naming_isolation sampleTC sampleDM rfl rfl
    sampleMetaT.1 sampleMetaT.2 sampleMetaD.1 sampleMetaD.2 rfl rfl
  exact ⟨h.1, h.2.1, h.2.2.1⟩

/-- The fixed kind order of the five apply invocations. -/
def fiveApplyKinds : List ApplyKind :=
  [ApplyKind.role, ApplyKind.serviceAccount, ApplyKind.roleBinding,
   ApplyKind.deployment, ApplyKind.service]

/-- Characterization of the post-dispatch reconcile body: the apply
trace is a prefix of the fixed Role, ServiceAccount, RoleBinding,
Deployment, Service order; every invocation except possibly the last
succeeded (a failure returns immediately); no plain error is returned;
success happens exactly when all five invocations were made and
accepted; and every error is a requeue error. -/
theorem reconcileCore_spec (deps : Dependencies) (app : Applier) (obj : ClusterObject)
    (rule : PolicyRule) (p6 : Bool) (meta : ObjectMeta) (l : Label)
    (hmeta : getDiscoveryMeta obj DiscoveryMemberName = Except.ok (meta, l)) :
    ((reconcileCore deps app obj rule p6).calls.map ApplyCall.kindOf <+: fiveApplyKinds) ∧
    (∀ c ∈ (reconcileCore deps app obj rule p6).calls.dropLast,
      applySucceeds app c = true) ∧
    (∀ msg, (reconcileCore deps app obj rule p6).result ≠
      Except.error (ReconcileError.plain msg)) ∧
    ((reconcileCore deps app obj rule p6).result = Except.ok () ↔
      ((reconcileCore deps app obj rule p6).calls.map ApplyCall.kindOf = fiveApplyKinds ∧
       ∀ c ∈ (reconcileCore deps app obj rule p6).calls, applySucceeds app c = true)) ∧
    (∀ e, (reconcileCore deps app obj rule p6).result = Except.error e →
      ∃ msg, e = ReconcileError.requeue msg) := by
  unfold reconcileCore
  rw [hmeta]
  dsimp only
  cases h1 : app.createOrUpdateRole
      { objectMeta := meta,
        rules := [rule, { apiGroups := [CoreGroupName], resources := ["secrets"],
                          verbs := ["get", "list", "watch"] }] } with
  | error e1 =>
    dsimp only
    refine ⟨⟨[ApplyKind.serviceAccount, ApplyKind.roleBinding, ApplyKind.deployment,
              ApplyKind.service], rfl⟩, ?_, ?_, ?_, ?_⟩
    · simp
    · intro msg hcon
      exact ReconcileError.noConfusion (Except.error.inj hcon)
    · exact ⟨fun hcon => Except.noConfusion hcon, fun hcon => absurd hcon.1 (by simp [ApplyCall.kindOf, fiveApplyKinds])⟩
    · intro e he
      exact ⟨_, (Except.error.inj he).symm⟩
  | ok r1 =>
    dsimp only
    cases h2 : app.createOrUpdateServiceAccount { objectMeta := meta } with
    | error e2 =>
      dsimp only
      refine ⟨⟨[ApplyKind.roleBinding, ApplyKind.deployment, ApplyKind.service], rfl⟩,
        ?_, ?_, ?_, ?_⟩
      · intro c hc
        simp at hc
        subst hc
        simp [applySucceeds, Except.toBool, h1]
      · intro msg hcon
        exact ReconcileError.noConfusion (Except.error.inj hcon)
      · exact ⟨fun hcon => Except.noConfusion hcon, fun hcon => absurd hcon.1 (by simp [ApplyCall.kindOf, fiveApplyKinds])⟩
      · intro e he
        exact ⟨_, (Except.error.inj he).symm⟩
    | ok r2 =>
      dsimp only
      cases h3 : app.createOrUpdateRoleBinding
          { objectMeta := meta,
            subjects := [{ kind := ServiceAccountKind, name := meta.name }],
            roleRef := { kind := "Role", name := meta.name, apiGroup := RbacGroupName } } with
      | error e3 =>
        dsimp only
        refine ⟨⟨[ApplyKind.deployment, ApplyKind.service], rfl⟩, ?_, ?_, ?_, ?_⟩
        · intro c hc
          simp at hc
          rcases hc with rfl | rfl <;> simp [applySucceeds, Except.toBool, h1, h2]
        · intro msg hcon
          exact ReconcileError.noConfusion (Except.error.inj hcon)
        · exact ⟨fun hcon => Except.noConfusion hcon, fun hcon => absurd hcon.1 (by simp [ApplyCall.kindOf, fiveApplyKinds])⟩
        · intro e he
          exact ⟨_, (Except.error.inj he).symm⟩
      | ok r3 =>
        dsimp only
        cases hbuild : getTidbDiscoveryDeployment deps obj with
        | error be =>
          dsimp only
          refine ⟨⟨[ApplyKind.deployment, ApplyKind.service], rfl⟩, ?_, ?_, ?_, ?_⟩
          · intro c hc
            simp at hc
            rcases hc with rfl | rfl <;> simp [applySucceeds, Except.toBool, h1, h2]
          · intro msg hcon
            exact ReconcileError.noConfusion (Except.error.inj hcon)
          · exact ⟨fun hcon => Except.noConfusion hcon, fun hcon => absurd hcon.1 (by simp [ApplyCall.kindOf, fiveApplyKinds])⟩
          · intro e he
            exact ⟨_, (Except.error.inj he).symm⟩
        | ok d =>
          dsimp only
          cases h4 : app.createOrUpdateDeployment d with
          | error e4 =>
            dsimp only
            refine ⟨⟨[ApplyKind.service], rfl⟩, ?_, ?_, ?_, ?_⟩
            · intro c hc
              simp at hc
              rcases hc with rfl | rfl | rfl <;> simp [applySucceeds, Except.toBool, h1, h2, h3]
            · intro msg hcon
              exact ReconcileError.noConfusion (Except.error.inj hcon)
            · exact ⟨fun hcon => Except.noConfusion hcon,
                     fun hcon => absurd hcon.1 (by simp [ApplyCall.kindOf, fiveApplyKinds])⟩
            · intro e he
              exact ⟨_, (Except.error.inj he).symm⟩
          | ok dep =>
            dsimp only
            obtain ⟨svc, hsvc⟩ : ∃ svc,
                getTidbDiscoveryService obj dep p6 = Except.ok svc := by
              unfold getTidbDiscoveryService
              rw [hmeta]
              exact ⟨_, rfl⟩
            rw [hsvc]
            dsimp only
            cases h5 : app.createOrUpdateService svc with
            | error e5 =>
              dsimp only
              refine ⟨⟨[], rfl⟩, ?_, ?_, ?_, ?_⟩
              · intro c hc
                simp [List.dropLast] at hc
                rcases hc with rfl | rfl | rfl | rfl <;>
                  simp [applySucceeds, Except.toBool, h1, h2, h3, h4]
              · intro msg hcon
                exact ReconcileError.noConfusion (Except.error.inj hcon)
              · refine ⟨fun hcon => Except.noConfusion hcon, fun hcon => ?_⟩
                exact absurd (hcon.2 (ApplyCall.service svc) (by simp))
                  (by simp [applySucceeds, Except.toBool, h5])
              · intro e he
                exact ⟨_, (Except.error.inj he).symm⟩
            | ok r5 =>
              dsimp only
              refine ⟨⟨[], rfl⟩, ?_, ?_, ?_, ?_⟩
              · intro c hc
                simp [List.dropLast] at hc
                rcases hc with rfl | rfl | rfl | rfl <;>
                  simp [applySucceeds, Except.toBool, h1, h2, h3, h4]
              · intro msg hcon
                exact Except.noConfusion hcon
              · refine ⟨fun _ => ⟨rfl, ?_⟩, fun _ => rfl⟩
                intro c hc
                simp at hc
                rcases hc with rfl | rfl | rfl | rfl | rfl <;>
                  simp [applySucceeds, Except.toBool, h1, h2, h3, h4, h5]
              · intro e he
                exact Except.noConfusion he

/-- Reduction of Reconcile to the core body for a Primary cluster that
passes the gating condition. -/
theorem Reconcile_eq_core_tidb (deps : Dependencies) (app : Applier)
    (tc : TidbCluster) (hcond : (tc.pd.isNone && !tc.acrossK8s) = false) :
    Reconcile deps app (some (ClusterObject.tidb tc)) =
      reconcileCore deps app (ClusterObject.tidb tc)
        { apiGroups := [GroupName], resources := [TiDBClusterName],
          resourceNames := [tc.name], verbs := ["get"] } tc.preferIPv6 := by
  unfold Reconcile
  dsimp only
  rw [hcond]
  rfl

/-- C7: for a known variant passing gating, Reconcile applies resources
in the fixed Role, ServiceAccount, RoleBinding, Deployment, Service
order; every apply except possibly the last succeeded (the first failure
returns immediately, invoking no later apply); no plain error is
returned on these paths; success holds exactly when all five applies
were made and accepted; and every failure is a retryable requeue error. -/
theorem reconcile_apply_order (deps : Dependencies) (app : Applier)
    (obj : ClusterObject) (hgate : passesGating obj = true) :
    ((Reconcile deps app (some obj)).calls.map ApplyCall.kindOf <+: fiveApplyKinds) ∧
    (∀ c ∈ (Reconcile deps app (some obj)).calls.dropLast,
      applySucceeds app c = true) ∧
    (∀ msg, (Reconcile deps app (some obj)).result ≠
      Except.error (ReconcileError.plain msg)) ∧
    ((Reconcile deps app (some obj)).result = Except.ok () ↔
      ((Reconcile deps app (some obj)).calls.map ApplyCall.kindOf = fiveApplyKinds ∧
       ∀ c ∈ (Reconcile deps app (some obj)).calls, applySucceeds app c = true)) ∧
    (∀ e, (Reconcile deps app (some obj)).result = Except.error e →
      ∃ msg, e = ReconcileError.requeue msg) := by
  cases obj with
  | tidb tc =>
    have hcond : (tc.pd.isNone && !tc.acrossK8s) = false := by
      cases hx : (tc.pd.isNone && !tc.acrossK8s) with
      | false => rfl
      | true =>
        have h := hgate
        simp [passesGating, hx] at h
    rw [Reconcile_eq_core_tidb deps app tc hcond]
    exact reconcileCore_spec deps app (ClusterObject.tidb tc) _ _ _ _ rfl
  | dm dc =>
    have hred : Reconcile deps app (some (ClusterObject.dm dc)) =
        reconcileCore deps app (ClusterObject.dm dc)
          { apiGroups := [GroupName], resources := [DMClusterName],
            resourceNames := [dc.name], verbs := ["get"] } false := rfl
    rw [hred]
    exact reconcileCore_spec deps app (ClusterObject.dm dc) _ _ _ _ rfl
  | unknown t =>
    simp [passesGating] at hgate

/-- C7 witness: with an all-accepting applier, the sample Migration
cluster reconciles successfully through all five applies in order. -/
theorem reconcile_apply_order_witness :
    (Reconcile sampleDeps okApplier (some (ClusterObject.dm sampleDM))).result =
      Except.ok () ∧
    (Reconcile sampleDeps okApplier (some (ClusterObject.dm sampleDM))).calls.map
      ApplyCall.kindOf = fiveApplyKinds := by
  have h := reconcile_apply_order sampleDeps okApplier (ClusterObject.dm sampleDM) rfl
  exact ⟨h.2.2.2.1.mpr ⟨by rfl, by decide⟩, by rfl⟩

/-- C10: the metav1.Object type-assertion guard can only fire on a nil
interface value — every non-nil object (the client.Object interface
embeds metav1.Object) never produces the plain type-assertion error,
while the nil value produces exactly it. -/
theorem reconcile_nil_guard (deps : Dependencies) (app : Applier) :
    (∀ c : ClusterObject, ∀ msg,
      (Reconcile deps app (some c)).result ≠
        Except.error (ReconcileError.plain msg)) ∧
    (Reconcile deps app none).result =
      Except.error (ReconcileError.plain "nil is not a metav1.Object") := by
  constructor
  · intro c msg
    cases c with
    | tidb tc =>
      by_cases hg : (tc.pd.isNone && !tc.acrossK8s) = true
      · have hz : Reconcile deps app (some (ClusterObject.tidb tc)) = {} := by
          unfold Reconcile
          dsimp only
          rw [hg]
          rfl
        rw [hz]
        simp
      · have hcond : (tc.pd.isNone && !tc.acrossK8s) = false := by simpa using hg
        rw [Reconcile_eq_core_tidb deps app tc hcond]
        exact (reconcileCore_spec deps app (ClusterObject.tidb tc) _ _ _ _ rfl).2.2.1 msg
    | dm dc =>
      exact (reconcileCore_spec deps app (ClusterObject.dm dc) _ _ _ _ rfl).2.2.1 msg
    | unknown t =>
      simp [Reconcile]
  · rfl

/-- C10 witness: the nil interface value yields exactly the plain
type-assertion error. -/
theorem reconcile_nil_guard_witness :
    (Reconcile sampleDeps okApplier none).result =
      Except.error (ReconcileError.plain "nil is not a metav1.Object") :=
  (reconcile_nil_guard sampleDeps okApplier).2

/-- Shape of a successfully built Service: ClusterIP type, the fixed
two TCP ports, and the selector equal to the pod-template labels of the
deployment argument. -/
theorem getTidbDiscoveryService_shape (obj : ClusterObject) (deploy : Deployment)
    (p6 : Bool) (svc : Service)
    (h : getTidbDiscoveryService obj deploy p6 = Except.ok svc) :
    svc.spec.type = "ClusterIP" ∧
    svc.spec.ports =
      [{ name := "discovery", port := 10261, targetPort := 10261, protocol := "TCP" },
       { name := "proxy", port := 10262, targetPort := 10262, protocol := "TCP" }] ∧
    svc.spec.selector = deploy.spec.template.labels := by
  unfold getTidbDiscoveryService at h
  cases hm : getDiscoveryMeta obj DiscoveryMemberName with
  | error e =>
    rw [hm] at h
    exact absurd h (by simp)
  | ok ml =>
    rw [hm] at h
    cases ml with
    | mk meta l =>
      dsimp only at h
      injection h with h2
      subst h2
      cases p6 with
      | false => exact ⟨rfl, rfl, rfl⟩
      | true => exact ⟨rfl, rfl, rfl⟩

/-- Inversion of the apply trace of the core body: a Service submitted
to the applier was built by getTidbDiscoveryService from the applied
Deployment returned by the Deployment apply (not the desired one). -/
theorem reconcileCore_service_calls (deps : Dependencies) (app : Applier)
    (obj : ClusterObject) (rule : PolicyRule) (p6 : Bool)
    (meta : ObjectMeta) (l : Label)
    (hmeta : getDiscoveryMeta obj DiscoveryMemberName = Except.ok (meta, l)) :
    ∀ svc, ApplyCall.service svc ∈ (reconcileCore deps app obj rule p6).calls →
      ∃ d dApplied, getTidbDiscoveryDeployment deps obj = Except.ok d ∧
        app.createOrUpdateDeployment d = Except.ok dApplied ∧
        getTidbDiscoveryService obj dApplied p6 = Except.ok svc := by
  unfold reconcileCore
  rw [hmeta]
  dsimp only
  intro svc
  cases h1 : app.createOrUpdateRole
      { objectMeta := meta,
        rules := [rule, { apiGroups := [CoreGroupName], resources := ["secrets"],
                          verbs := ["get", "list", "watch"] }] } with
  | error e1 =>
    intro hmem
    simp at hmem
  | ok r1 =>
    dsimp only
    cases h2 : app.createOrUpdateServiceAccount { objectMeta := meta } with
    | error e2 =>
      intro hmem
      simp at hmem
    | ok r2 =>
      dsimp only
      cases h3 : app.createOrUpdateRoleBinding
          { objectMeta := meta,
            subjects := [{ kind := ServiceAccountKind, name := meta.name }],
            roleRef := { kind := "Role", name := meta.name, apiGroup := RbacGroupName } } with
      | error e3 =>
        intro hmem
        simp at hmem
      | ok r3 =>
        dsimp only
        cases hbuild : getTidbDiscoveryDeployment deps obj with
        | error be =>
          intro hmem
          simp at hmem
        | ok d =>
          dsimp only
          cases h4 : app.createOrUpdateDeployment d with
          | error e4 =>
            intro hmem
            simp at hmem
          | ok dep =>
            dsimp only
            obtain ⟨svc0, hsvc⟩ : ∃ s,
                getTidbDiscoveryService obj dep p6 = Except.ok s := by
              unfold getTidbDiscoveryService
              rw [hmeta]
              exact ⟨_, rfl⟩
            rw [hsvc]
            dsimp only
            cases h5 : app.createOrUpdateService svc0 with
            | error e5 =>
              intro hmem
              simp at hmem
              subst hmem
              exact ⟨d, dep, rfl, h4, hsvc⟩
            | ok r5 =>
              intro hmem
              simp at hmem
              subst hmem
              exact ⟨d, dep, rfl, h4, hsvc⟩

/-- C4: the built Service is a ClusterIP service with exactly the two
named TCP ports 10261/10262 and its selector equals the pod-template
labels of the deployment it is built from; inside Reconcile, the
Service submitted to the applier is built from the applied Deployment
returned by the Deployment apply, so its selector equals the applied
(not the pre-apply desired) pod-template labels. -/
theorem discovery_service_selector (deps : Dependencies) (app : Applier) :
    (∀ (obj : ClusterObject) (deploy : Deployment) (p6 : Bool) (svc : Service),
      getTidbDiscoveryService obj deploy p6 = Except.ok svc →
      svc.spec.type = "ClusterIP" ∧
      svc.spec.ports =
        [{ name := "discovery", port := 10261, targetPort := 10261, protocol := "TCP" },
         { name := "proxy", port := 10262, targetPort := 10262, protocol := "TCP" }] ∧
      svc.spec.selector = deploy.spec.template.labels) ∧
    (∀ (obj : ClusterObject) (svc : Service),
      ApplyCall.service svc ∈ (Reconcile deps app (some obj)).calls →
      ∃ d dApplied, getTidbDiscoveryDeployment deps obj = Except.ok d ∧
        app.createOrUpdateDeployment d = Except.ok dApplied ∧
        svc.spec.selector = dApplied.spec.template.labels) := by
  constructor
  · intro obj deploy p6 svc h
    exact getTidbDiscoveryService_shape obj deploy p6 svc h
  · intro obj svc hmem
    cases obj with
    | tidb tc =>
      by_cases hg : (tc.pd.isNone && !tc.acrossK8s) = true
      · have hz : Reconcile deps app (some (ClusterObject.tidb tc)) = {} := by
          unfold Reconcile
          dsimp only
          rw [hg]
          rfl
        rw [hz] at hmem
        simp at hmem
      · have hcond : (tc.pd.isNone && !tc.acrossK8s) = false := by simpa using hg
        rw [Reconcile_eq_core_tidb deps app tc hcond] at hmem
        obtain ⟨d, dep, hb, ha, hs⟩ :=
          reconcileCore_service_calls deps app (ClusterObject.tidb tc) _ _ _ _
            rfl svc hmem
        exact ⟨d, dep, hb, ha,
          (getTidbDiscoveryService_shape _ _ _ _ hs).2.2⟩
    | dm dc =>
      obtain ⟨d, dep, hb, ha, hs⟩ :=
        reconcileCore_service_calls deps app (ClusterObject.dm dc) _ _ _ _
          rfl svc hmem
      exact ⟨d, dep, hb, ha,
        (getTidbDiscoveryService_shape _ _ _ _ hs).2.2⟩
    | unknown t =>
      simp [Reconcile] at hmem

/-- A throwaway Service used as a getD default. -/
def anyService : Service := { objectMeta := anyMeta, spec := {} }

/-- The Service built for the sample Migration cluster from the sample
built Deployment. -/
def sampleSvc : Service :=
  (getTidbDiscoveryService (ClusterObject.dm sampleDM) builtOn false).toOption.getD
    anyService

/-- C4 witness: the sample Service is ClusterIP and its selector equals
the pod-template labels of the deployment it was built from. -/
theorem discovery_service_selector_witness :
    sampleSvc.spec.type = "ClusterIP" ∧
    sampleSvc.spec.selector = builtOn.spec.template.labels := by
  have h := (discovery_service_selector sampleDeps okApplier).1
    (ClusterObject.dm sampleDM) builtOn false sampleSvc rfl
  exact ⟨h.1, h.2.2⟩
